import Mathlib

/-!
Shallow embedding of `tck/framework/request_reply.go`: the request/reply
conformance suite (`Request_reply`), its per-case verification procedures,
and the default container setup strategy `setUpContainerUsingPortEnvVar`.

External collaborators (the docker client, the free-port allocator, the
network dialer, the HTTP client and the mime parser) are modelled as
explicit environment parameters; the trace of externally visible effects
(pull, create, start, dial attempts, sleeps) is returned alongside the
result so that resource-lifecycle properties can be stated.
-/

namespace RequestReply

/-- A test case descriptor as declared in the Go `Testcase` struct.
The verification procedure `T` and the setup/teardown strategies are
function-valued fields in Go; they are modelled separately below
(`rr0001T`, `rr0002T`, ..., `setUpContainerUsingPortEnvVar`). -/
structure Testcase where
  Name : String
  Description : String
  Optional : Bool := false
  Image : String
deriving DecidableEq, Repr

/-- A suite as declared in the Go `Suite` struct. -/
structure Suite where
  Name : String
  Description : String
  Port : Nat
  Cases : List Testcase
deriving DecidableEq, Repr

/-- The `Request_reply` suite value registered in `request_reply.go`
(the commented-out case rr-0000 is omitted, exactly as in the source). -/
def Request_reply : Suite :=
  { Name := "rr"
    Description := "Request / Reply Interaction"
    Port := 8080
    Cases :=
      [ { Name := "rr-0001"
          Description := "MUST NOT reply on paths other than / or methods other than POST"
          Image := "upper" }
      , { Name := "rr-0002"
          Description := "MUST honor the Accept header"
          Image := "upper" }
      , { Name := "rr-0003"
          Description := "SHOULD reply with 415 on unrecognized Content-Type"
          Optional := true
          Image := "upper" }
      , { Name := "rr-0004"
          Description := "MUST reply with 5xx on unmarshalling error"
          Image := "upper" }
      , { Name := "rr-0005"
          Description := "SHOULD reply with 406 on inability to marshall back"
          Optional := true
          Image := "upper" } ] }

/-! Section: HTTP environment for the verification procedures -/

/-- An HTTP request as assembled by a verification procedure:
method, path (of the URL `http://localhost:PORT<path>`), headers set on
the request, and the request body. -/
structure Request where
  Method : String
  Path : String
  Headers : List (String × String)
  Body : String
deriving DecidableEq, Repr

/-- An HTTP response as observed by a verification procedure: the status
code, the body read by `ioutil.ReadAll`, and the list of values of the
`Content-Type` response header. -/
structure Response where
  StatusCode : Nat
  Body : String
  ContentType : List String
deriving DecidableEq, Repr

/-- An HTTP world: what the candidate service answers to each request.
Models `http.DefaultClient.Do` / `http.Post` succeeding with a response
(transport errors are outside the responses the claims range over). -/
def HttpWorld := Request → Response

/-- The verification procedure of case rr-0001, from its Go closure `T`:
POST `hello` to `/bogus` (with `Content-Type: text/plain`, as `http.Post`
sets) and panic if the body read back is `HELLO`; then PUT `hello` to `/`
with `Content-Type: text/plain` and panic if the body read back is
`HELLO`.  Panics are modelled as `Except.error` carrying the message. -/
def rr0001T (world : HttpWorld) : Except String Unit :=
  let response := world { Method := "POST", Path := "/bogus",
                          Headers := [("Content-Type", "text/plain")],
                          Body := "hello" }
  if response.Body = "HELLO" then
    Except.error "The function function should only be exposed on /"
  else
    let response2 := world { Method := "PUT", Path := "/",
                             Headers := [("Content-Type", "text/plain")],
                             Body := "hello" }
    if response2.Body = "HELLO" then
      Except.error "The function function should only be exposed on /"
    else
      Except.ok ()

/-- One response check of the `T` of rr-0002, in source order: status must be
200, the body must equal `expectedBody`, the response must carry exactly
one `Content-Type` header, that header must parse as a media type
(`mime.ParseMediaType`, modelled by the parameter `parseMediaType`
returning the media type or `none` on a parse error), and the media type
must equal `expectedType`. -/
def rr0002check (parseMediaType : String → Option String)
    (response : Response) (expectedBody expectedType : String) :
    Except String Unit :=
  if response.StatusCode ≠ 200 then
    Except.error "Expected http status 200"
  else if response.Body ≠ expectedBody then
    Except.error ("Expected result " ++ expectedBody ++ ", got " ++ response.Body)
  else
    match response.ContentType with
    | [h] =>
      match parseMediaType h with
      | none => Except.error "Error parsing content-type"
      | some mediaType =>
        if mediaType ≠ expectedType then
          Except.error ("Expected response Content-Type to be set to " ++ expectedType)
        else
          Except.ok ()
    | _ => Except.error "No Content-Type set on response"

/-- The verification procedure of case rr-0002, from its Go closure `T`:
POST `hello` to `/` with `Content-Type: text/plain` and
`Accept: text/plain`, expecting 200 / `HELLO` / media type `text/plain`;
then the same request with `Accept: application/json`, expecting
200 / `"HELLO"` / media type `application/json`. -/
def rr0002T (parseMediaType : String → Option String) (world : HttpWorld) :
    Except String Unit :=
  let response := world { Method := "POST", Path := "/",
                          Headers := [("Content-Type", "text/plain"), ("Accept", "text/plain")],
                          Body := "hello" }
  match rr0002check parseMediaType response "HELLO" "text/plain" with
  | Except.error e => Except.error e
  | Except.ok _ =>
    let response2 := world { Method := "POST", Path := "/",
                             Headers := [("Content-Type", "text/plain"), ("Accept", "application/json")],
                             Body := "hello" }
    rr0002check parseMediaType response2 "\"HELLO\"" "application/json"

/-- The verification procedure of case rr-0004, from its Go closure `T`:
POST the malformed JSON body `"hello` to `/` with
`Content-Type: application/json` and `Accept: text/plain`; panic unless
the status code is at least 500. -/
def rr0004T (world : HttpWorld) : Except String Unit :=
  let response := world { Method := "POST", Path := "/",
                          Headers := [("Content-Type", "application/json"), ("Accept", "text/plain")],
                          Body := "\"hello" }
  if response.StatusCode < 500 then
    Except.error "Expected 5xx http code"
  else
    Except.ok ()

/-! Section: Aggregation (Runner / Result Aggregator) -/

/-- Status of a case outcome. -/
inductive Status where
  | Passed
  | Failed
  | Skipped
deriving DecidableEq, Repr

/-- A per-case outcome: case name, status, and the `Optional` flag carried
over from the descriptor. -/
structure CaseOutcome where
  Name : String
  status : Status
  Optional : Bool
deriving DecidableEq, Repr

/-- Modelled from the spec: the Runner / Result Aggregator is not among the
provided source files; its derived overall status is taken from the spec
verbatim: "derived overall status = Failed if any mandatory Case Outcome is
Failed, else Passed". -/
def overallStatus (outcomes : List CaseOutcome) : Status :=
  if outcomes.any (fun o => !o.Optional && o.status == Status.Failed) then
    Status.Failed
  else
    Status.Passed

/-- The outcomes of running a suite when case `c` ends with status
`f c.Name`, each tagged with the `Optional` flag of the descriptor. -/
def suiteOutcomes (s : Suite) (f : String → Status) : List CaseOutcome :=
  s.Cases.map (fun c => { Name := c.Name, status := f c.Name, Optional := c.Optional })

/-! Section: The default setup strategy `setUpContainerUsingPortEnvVar`

The docker client, the free-port allocator and `net.Dial` are external
collaborators; a `SetupEnv` fixes their answers for one run.  The setup
function returns the trace of effects it performed together with its Go
result `(*Container, error)`. -/

/-- The `Container` handle returned by the setup strategy. -/
structure Container where
  id : String
  hostPort : Nat
deriving DecidableEq, Repr

/-- A `nat.PortBinding`: host IP and host port (a string in Go). -/
structure PortBinding where
  HostIP : String
  HostPort : String
deriving DecidableEq, Repr

/-- The `container.Config` passed to `ContainerCreate`: image, the set of
exposed container ports (`nat.PortSet` keys), and the environment. -/
structure ContainerConfig where
  Image : String
  ExposedPorts : List String
  Env : List String
deriving DecidableEq, Repr

/-- The `container.HostConfig` passed to `ContainerCreate`: the port map
from container port to host bindings. -/
structure HostConfig where
  PortBindings : List (String × List PortBinding)
deriving DecidableEq, Repr

/-- Externally visible effects of the setup strategy, in order. -/
inductive SetupEvent where
  | imagePull (image : String)
  | getFreePort
  | containerCreate (cfg : ContainerConfig) (host : HostConfig)
  | containerStart (id : String)
  | dialAttempt (hostPort : Nat)
  | sleepMs (ms : Nat)
  | containerStop (id : String)
deriving DecidableEq, Repr

/-- Which step of setup returned a non-nil error. -/
inductive SetupError where
  | pullErr
  | portErr
  | createErr
  | startErr
  | dialErr
deriving DecidableEq, Repr

/-- Answers of the external collaborators for one setup run:
whether `ImagePull` succeeds, the port `getFreePort` returns (`none` on
error), the id `ContainerCreate` returns (`none` on error), whether
`ContainerStart` succeeds, and whether the `i`-th (zero-indexed)
`net.Dial` attempt succeeds. -/
structure SetupEnv where
  pullOk : Bool
  freePort : Option Nat
  createId : Option String
  startOk : Bool
  dialOk : Nat → Bool

/-- The readiness-probe loop of `setUpContainerUsingPortEnvVar`:
`for i := 0; i < 10; i++ { dial; if ok break; sleep 10ms * 2^i }`.
`fuel` is the number of remaining iterations and `i` the current loop
index; returns the trace of dial attempts and sleeps, and whether the
final `err` is nil (some attempt succeeded). -/
def probeFrom (dialOk : Nat → Bool) (hostPort : Nat) :
    Nat → Nat → List SetupEvent × Bool
  | 0, _ => ([], false)
  | fuel + 1, i =>
    if dialOk i then
      ([SetupEvent.dialAttempt hostPort], true)
    else
      let rest := probeFrom dialOk hostPort fuel (i + 1)
      (SetupEvent.dialAttempt hostPort :: SetupEvent.sleepMs (10 * 2 ^ i) :: rest.1,
       rest.2)

/-- The full readiness-probe loop: 10 iterations starting at index 0. -/
def probe (dialOk : Nat → Bool) (hostPort : Nat) : List SetupEvent × Bool :=
  probeFrom dialOk hostPort 10 0

/-- The default setup strategy `setUpContainerUsingPortEnvVar`: pull the
image; get a free host port; create a container exposing the hardcoded
container port `"4321"` bound to the host port, with env `PORT=4321`;
start it; probe readiness with the 10-attempt exponential-backoff loop;
on probe success sleep a further 1000ms and return the handle.  Any
non-nil error returns immediately with the trace so far. -/
def setUpContainerUsingPortEnvVar (image : String) (env : SetupEnv) :
    List SetupEvent × Except SetupError Container :=
  let pullTrace := [SetupEvent.imagePull image]
  if env.pullOk = false then
    (pullTrace, Except.error SetupError.pullErr)
  else
    match env.freePort with
    | none => (pullTrace ++ [SetupEvent.getFreePort], Except.error SetupError.portErr)
    | some hostPort =>
      let hostBinding : PortBinding := { HostIP := "0.0.0.0", HostPort := toString hostPort }
      let containerPort : String := "4321"
      let cfg : ContainerConfig :=
        { Image := image, ExposedPorts := [containerPort], Env := ["PORT=4321"] }
      let hostCfg : HostConfig := { PortBindings := [(containerPort, [hostBinding])] }
      let createTrace :=
        pullTrace ++ [SetupEvent.getFreePort, SetupEvent.containerCreate cfg hostCfg]
      match env.createId with
      | none => (createTrace, Except.error SetupError.createErr)
      | some contId =>
        if env.startOk = false then
          (createTrace ++ [SetupEvent.containerStart contId],
           Except.error SetupError.startErr)
        else
          let probed := probe env.dialOk hostPort
          let trace := createTrace ++ [SetupEvent.containerStart contId] ++ probed.1
          if probed.2 then
            (trace ++ [SetupEvent.sleepMs 1000],
             Except.ok { id := contId, hostPort := hostPort })
          else
            (trace, Except.error SetupError.dialErr)

/-- The durations of the sleep events of a trace, in order. -/
def sleepsOf (trace : List SetupEvent) : List Nat :=
  trace.filterMap (fun e =>
    match e with
    | SetupEvent.sleepMs ms => some ms
    | _ => none)

/-- The number of dial attempts in a trace. -/
def dialCount (trace : List SetupEvent) : Nat :=
  trace.countP (fun e =>
    match e with
    | SetupEvent.dialAttempt _ => true
    | _ => false)

/-- The number of consecutive failed dial attempts starting at index `i`,
capped at `fuel`. -/
def failStreak (dialOk : Nat → Bool) : Nat → Nat → Nat
  | 0, _ => 0
  | fuel + 1, i => if dialOk i then 0 else failStreak dialOk fuel (i + 1) + 1

/-- A run where every external call succeeds and the very first dial
attempt connects. -/
def envAllOk : SetupEnv :=
  { pullOk := true, freePort := some 33000, createId := some "cid",
    startOk := true, dialOk := fun _ => true }

/-- A run where pull, port allocation, create and start all succeed but
no dial attempt ever connects (the candidate never becomes reachable). -/
def envAllOkDialFail : SetupEnv :=
  { pullOk := true, freePort := some 33000, createId := some "cid",
    startOk := true, dialOk := fun _ => false }

end RequestReply

namespace RequestReply

/-! Section: Helper lemmas about the readiness-probe loop -/

theorem probeFrom_snd_true_iff (d : Nat → Bool) (hp : Nat) (fuel i : Nat) :
    (probeFrom d hp fuel i).2 = true ↔ ∃ j, i ≤ j ∧ j < i + fuel ∧ d j = true := by
  induction fuel generalizing i with
  | zero => simp [probeFrom]; omega
  | succ fuel ih =>
    by_cases hd : d i
    · simp only [probeFrom, hd, if_pos]
      exact iff_of_true trivial ⟨i, le_refl i, by omega, hd⟩
    · simp only [probeFrom, hd, Bool.false_eq_true, if_neg, not_false_iff]
      rw [ih (i + 1)]
      constructor
      · rintro ⟨j, h1, h2, h3⟩
        exact ⟨j, by omega, by omega, h3⟩
      · rintro ⟨j, h1, h2, h3⟩
        refine ⟨j, ?_, by omega, h3⟩
        rcases Nat.eq_or_lt_of_le h1 with h | h
        · exact absurd h3 (by rw [← h]; simp [hd])
        · omega

theorem probeFrom_dialCount_le (d : Nat → Bool) (hp : Nat) (fuel i : Nat) :
    dialCount (probeFrom d hp fuel i).1 ≤ fuel := by
  induction fuel generalizing i with
  | zero => simp [probeFrom, dialCount]
  | succ fuel ih =>
    by_cases hd : d i
    · simp [probeFrom, hd, dialCount, List.countP_cons, List.countP_nil]
    · have := ih (i + 1)
      simp [probeFrom, hd, dialCount, List.countP_cons, List.countP_nil] at this ⊢
      omega

theorem no_stop_in_probeFrom (d : Nat → Bool) (hp : Nat) (fuel i : Nat) (id : String) :
    SetupEvent.containerStop id ∉ (probeFrom d hp fuel i).1 := by
  induction fuel generalizing i with
  | zero => simp [probeFrom]
  | succ fuel ih =>
    by_cases hd : d i
    · simp [probeFrom, hd]
    · simp only [probeFrom, hd, Bool.false_eq_true, if_neg, not_false_iff]
      simp [ih (i + 1)]

theorem ten_mul_two_pow_ne_thousand (j : Nat) : 10 * 2 ^ j ≠ 1000 := by
  intro h
  have h2 : 2 ^ j = 100 := by omega
  rcases lt_or_ge j 7 with hj | hj
  · interval_cases j <;> simp_all
  · have hmono : (2 : Nat) ^ 7 ≤ 2 ^ j := Nat.pow_le_pow_right (by norm_num) hj
    omega

theorem no_settle_in_probeFrom (d : Nat → Bool) (hp : Nat) (fuel i : Nat) :
    SetupEvent.sleepMs 1000 ∉ (probeFrom d hp fuel i).1 := by
  induction fuel generalizing i with
  | zero => simp [probeFrom]
  | succ fuel ih =>
    by_cases hd : d i
    · simp [probeFrom, hd]
    · simp only [probeFrom, hd, Bool.false_eq_true, if_neg, not_false_iff]
      simp [ih (i + 1)]
      intro h
      exact ten_mul_two_pow_ne_thousand i h.symm

/-! Section: Claim theorems -/

/-- Claim C9: in the registered suite `rr`, the Test Case Descriptor names
are the fixed ordered list rr-0001 .. rr-0005 and are pairwise distinct;
the case sequence is this fixed list (the suite value is a constant of
the embedding, immutable by construction). -/
theorem C9_case_names_unique_and_fixed :
    Request_reply.Cases.map Testcase.Name =
      ["rr-0001", "rr-0002", "rr-0003", "rr-0004", "rr-0005"] ∧
    (Request_reply.Cases.map Testcase.Name).Nodup := by
  refine ⟨rfl, ?_⟩
  decide

/-- Claim C8: the verification procedure of the mandatory case rr-0004
sends the malformed JSON body to POST / with Content-Type application/json
and completes normally exactly when the response status code is at least
500; any status below 500 raises a failure signal. -/
theorem C8_rr0004_status_ge_500 (world : HttpWorld) :
    rr0004T world = Except.ok () ↔
      500 ≤ (world { Method := "POST", Path := "/",
                     Headers := [("Content-Type", "application/json"), ("Accept", "text/plain")],
                     Body := "\"hello" }).StatusCode := by
  simp only [rr0004T]
  split_ifs with h
  · exact iff_of_false (by simp) (by omega)
  · exact iff_of_true rfl (by omega)

/-- Claim C10: the verification procedure of case rr-0001 judges
responses solely by body content: it completes normally exactly when the
body answered to POST /bogus differs from HELLO and the body answered to
PUT / differs from HELLO, for every status code; both the POST /bogus and
the PUT / checks are performed. -/
theorem C10_rr0001_body_only (world : HttpWorld) :
    rr0001T world = Except.ok () ↔
      ((world { Method := "POST", Path := "/bogus",
                Headers := [("Content-Type", "text/plain")], Body := "hello" }).Body ≠ "HELLO" ∧
       (world { Method := "PUT", Path := "/",
                Headers := [("Content-Type", "text/plain")], Body := "hello" }).Body ≠ "HELLO") := by
  simp only [rr0001T]
  split_ifs with h1 h2
  · exact iff_of_false (by simp) (by simp [h1])
  · exact iff_of_false (by simp) (by simp [h2])
  · exact iff_of_true rfl ⟨h1, h2⟩

/-- Claim C6: the derived overall status of a suite, applied to the
registered `rr` suite with per-case statuses `f`, is Failed exactly when
one of the mandatory cases rr-0001, rr-0002, rr-0004 is Failed; failures
of the cases flagged Optional (rr-0003 and rr-0005) never make the
overall status Failed. -/
theorem C6_overall_failed_iff_mandatory_failed :
    (∀ outcomes : List CaseOutcome,
        overallStatus outcomes = Status.Failed ↔
          ∃ o ∈ outcomes, o.Optional = false ∧ o.status = Status.Failed) ∧
    (∀ f : String → Status,
        overallStatus (suiteOutcomes Request_reply f) = Status.Failed ↔
          (f "rr-0001" = Status.Failed ∨ f "rr-0002" = Status.Failed ∨
           f "rr-0004" = Status.Failed)) := by
  have hgen : ∀ outcomes : List CaseOutcome,
      overallStatus outcomes = Status.Failed ↔
        ∃ o ∈ outcomes, o.Optional = false ∧ o.status = Status.Failed := by
    intro outcomes
    unfold overallStatus
    split_ifs with h
    · rw [List.any_eq_true] at h
      obtain ⟨o, ho, hcond⟩ := h
      simp only [Bool.and_eq_true, Bool.not_eq_true', beq_iff_eq] at hcond
      exact iff_of_true rfl ⟨o, ho, hcond.1, hcond.2⟩
    · rw [List.any_eq_true] at h
      push_neg at h
      constructor
      · intro hc
        exact absurd hc (by simp)
      · rintro ⟨o, ho, h1, h2⟩
        exact absurd (by simp [h1, h2] : (!o.Optional && o.status == Status.Failed) = true) (h o ho)
  refine ⟨hgen, fun f => ?_⟩
  rw [hgen]
  simp [suiteOutcomes, Request_reply]

/-- Helper: the single-response check of rr-0002 completes normally
exactly when the status is 200, the body is the expected one, and the
response carries exactly one Content-Type header whose parsed media type
is the expected one. -/
theorem rr0002check_ok_iff (p : String → Option String) (r : Response)
    (eb et : String) :
    rr0002check p r eb et = Except.ok () ↔
      r.StatusCode = 200 ∧ r.Body = eb ∧
        ∃ h, r.ContentType = [h] ∧ p h = some et := by
  unfold rr0002check
  split_ifs with h1 h2
  · exact iff_of_false (by simp) (by tauto)
  · exact iff_of_false (by simp) (by tauto)
  · rcases hct : r.ContentType with _ | ⟨h, _ | ⟨h2, t⟩⟩
    · exact iff_of_false (by simp) (by simp [hct])
    · rcases hp : p h with _ | mt
      · refine iff_of_false (by simp [hp]) ?_
        rintro ⟨-, -, h3, hh, hph⟩
        simp at hh
        subst hh
        simp [hp] at hph
      · dsimp only
        rw [hp]
        dsimp only
        split_ifs with h3
        · refine iff_of_false (by simp) ?_
          rintro ⟨-, -, h4, hh, hph⟩
          simp at hh
          subst hh
          rw [hp] at hph
          simp at hph
          exact h3 hph
        · push_neg at h1 h3
          subst h3
          exact iff_of_true rfl ⟨h1, by tauto, h, rfl, hp⟩
    · exact iff_of_false (by simp) (by
        rintro ⟨-, -, h4, hh, -⟩
        simp at hh)

/-- Claim C7: the verification procedure of case rr-0002 completes
normally exactly when the response to POST / with Content-Type text/plain,
Accept text/plain and body hello has status 200, body HELLO and a single
Content-Type header parsing to media type text/plain, and the response to
the same request with Accept application/json has status 200, body
quoted HELLO, and a single Content-Type header parsing to media type
application/json; anything else raises a failure signal. -/
theorem C7_rr0002_content_negotiation (p : String → Option String)
    (world : HttpWorld) :
    rr0002T p world = Except.ok () ↔
      ((world { Method := "POST", Path := "/",
                Headers := [("Content-Type", "text/plain"), ("Accept", "text/plain")],
                Body := "hello" }).StatusCode = 200 ∧
       (world { Method := "POST", Path := "/",
                Headers := [("Content-Type", "text/plain"), ("Accept", "text/plain")],
                Body := "hello" }).Body = "HELLO" ∧
       (∃ h, (world { Method := "POST", Path := "/",
                      Headers := [("Content-Type", "text/plain"), ("Accept", "text/plain")],
                      Body := "hello" }).ContentType = [h] ∧ p h = some "text/plain")) ∧
      ((world { Method := "POST", Path := "/",
                Headers := [("Content-Type", "text/plain"), ("Accept", "application/json")],
                Body := "hello" }).StatusCode = 200 ∧
       (world { Method := "POST", Path := "/",
                Headers := [("Content-Type", "text/plain"), ("Accept", "application/json")],
                Body := "hello" }).Body = "\"HELLO\"" ∧
       (∃ h, (world { Method := "POST", Path := "/",
                      Headers := [("Content-Type", "text/plain"), ("Accept", "application/json")],
                      Body := "hello" }).ContentType = [h] ∧ p h = some "application/json")) := by
  simp only [rr0002T]
  rcases hc : rr0002check p
      (world { Method := "POST", Path := "/",
               Headers := [("Content-Type", "text/plain"), ("Accept", "text/plain")],
               Body := "hello" }) "HELLO" "text/plain" with e | u
  · have h1 : ¬ _ := fun hcontra => by
      rw [(rr0002check_ok_iff p _ "HELLO" "text/plain").mpr hcontra] at hc
      exact Except.noConfusion hc
    exact iff_of_false (by simp) (fun hcontra => h1 hcontra.1)
  · obtain ⟨⟩ := u
    have h1 := (rr0002check_ok_iff p _ "HELLO" "text/plain").mp hc
    rw [rr0002check_ok_iff]
    exact ⟨fun h2 => ⟨h1, h2⟩, fun h2 => h2.2⟩

/-! Section: Claim theorems about the default setup strategy -/

theorem probe_false_of_allFail (d : Nat → Bool) (hp : Nat)
    (hall : ∀ i, i < 10 → d i = false) : (probe d hp).2 = false := by
  rw [probe]
  cases hb : (probeFrom d hp 10 0).2 with
  | false => rfl
  | true =>
    rw [probeFrom_snd_true_iff] at hb
    obtain ⟨j, -, hj, hdj⟩ := hb
    rw [hall j (by omega)] at hdj
    exact Bool.noConfusion hdj

theorem getLast?_append_singleton {α : Type} (l : List α) (a : α) :
    (l ++ [a]).getLast? = some a := by
  induction l with
  | nil => rfl
  | cons b l ih =>
    rw [List.cons_append]
    cases l with
    | nil => rfl
    | cons c l => rw [List.cons_append, List.getLast?_cons_cons, ← List.cons_append, ih]

/-- Claim C3: whatever the environment answers, the default setup
strategy makes at most 10 connection attempts, and when no attempt
succeeds it returns an error instead of looping: the readiness probe
always terminates within its attempt budget. -/
theorem C3_probe_at_most_ten_attempts (image : String) (env : SetupEnv) :
    dialCount (setUpContainerUsingPortEnvVar image env).1 ≤ 10 ∧
    ((∀ i, i < 10 → env.dialOk i = false) →
      ∃ e, (setUpContainerUsingPortEnvVar image env).2 = Except.error e) := by
  obtain ⟨pOk, fp, cid, sOk, d⟩ := env
  cases pOk with
  | false =>
    exact ⟨by simp [setUpContainerUsingPortEnvVar, dialCount],
           fun _ => ⟨SetupError.pullErr, rfl⟩⟩
  | true =>
    cases fp with
    | none =>
      exact ⟨by simp [setUpContainerUsingPortEnvVar, dialCount],
             fun _ => ⟨SetupError.portErr, rfl⟩⟩
    | some hp =>
      cases cid with
      | none =>
        exact ⟨by simp [setUpContainerUsingPortEnvVar, dialCount],
               fun _ => ⟨SetupError.createErr, rfl⟩⟩
      | some id =>
        cases sOk with
        | false =>
          exact ⟨by simp [setUpContainerUsingPortEnvVar, dialCount],
                 fun _ => ⟨SetupError.startErr, rfl⟩⟩
        | true =>
          constructor
          · have hdc := probeFrom_dialCount_le d hp 10 0
            simp only [dialCount] at hdc ⊢
            cases hb : (probeFrom d hp 10 0).2 with
            | false =>
              simp [setUpContainerUsingPortEnvVar, probe, hb,
                    List.countP_append, List.countP_cons, List.countP_nil]
              omega
            | true =>
              simp [setUpContainerUsingPortEnvVar, probe, hb,
                    List.countP_append, List.countP_cons, List.countP_nil]
              omega
          · intro hall
            have hfalse := probe_false_of_allFail d hp hall
            refine ⟨SetupError.dialErr, ?_⟩
            simp [setUpContainerUsingPortEnvVar, hfalse]

/-- Claim C3 witness: a concrete all-failing run makes at most 10 dial
attempts and ends in an error. -/
theorem C3_witness :
    dialCount (setUpContainerUsingPortEnvVar "upper" envAllOkDialFail).1 ≤ 10 ∧
    ∃ e, (setUpContainerUsingPortEnvVar "upper" envAllOkDialFail).2 = Except.error e :=
  ⟨(C3_probe_at_most_ten_attempts "upper" envAllOkDialFail).1,
   (C3_probe_at_most_ten_attempts "upper" envAllOkDialFail).2 (fun _ _ => rfl)⟩

theorem failStreak_false (d : Nat → Bool) (fuel : Nat) :
    ∀ i j, j < failStreak d fuel i → d (i + j) = false := by
  induction fuel with
  | zero => intro i j hj; simp [failStreak] at hj
  | succ fuel ih =>
    intro i j hj
    by_cases hd : d i
    · simp [failStreak, hd] at hj
    · rw [failStreak, if_neg hd] at hj
      cases j with
      | zero => simpa using hd
      | succ j =>
        have heq : i + (j + 1) = (i + 1) + j := by omega
        rw [heq]
        exact ih (i + 1) j (by omega)

theorem failStreak_first_true (d : Nat → Bool) (fuel : Nat) :
    ∀ i, failStreak d fuel i < fuel → d (i + failStreak d fuel i) = true := by
  induction fuel with
  | zero => intro i h; omega
  | succ fuel ih =>
    intro i h
    by_cases hd : d i
    · simp [failStreak, hd]
    · rw [failStreak, if_neg hd] at h ⊢
      have heq : i + (failStreak d fuel (i + 1) + 1) = (i + 1) + failStreak d fuel (i + 1) := by
        omega
      rw [heq]
      exact ih (i + 1) (by omega)

theorem probeFrom_succ_neg (d : Nat → Bool) (hp fuel i : Nat) (hd : d i = false) :
    probeFrom d hp (fuel + 1) i =
      (SetupEvent.dialAttempt hp :: SetupEvent.sleepMs (10 * 2 ^ i) ::
         (probeFrom d hp fuel (i + 1)).1,
       (probeFrom d hp fuel (i + 1)).2) := by
  simp [probeFrom, hd]

theorem sleepsOf_cons_dial (hp : Nat) (l : List SetupEvent) :
    sleepsOf (SetupEvent.dialAttempt hp :: l) = sleepsOf l := by
  simp [sleepsOf]

theorem sleepsOf_cons_sleep (ms : Nat) (l : List SetupEvent) :
    sleepsOf (SetupEvent.sleepMs ms :: l) = ms :: sleepsOf l := by
  simp [sleepsOf]

theorem probeFrom_sleepsOf (d : Nat → Bool) (hp : Nat) (fuel : Nat) :
    ∀ i, sleepsOf (probeFrom d hp fuel i).1 =
      (List.range (failStreak d fuel i)).map (fun j => 10 * 2 ^ (i + j)) := by
  induction fuel with
  | zero => intro i; simp [probeFrom, sleepsOf, failStreak]
  | succ fuel ih =>
    intro i
    by_cases hd : d i
    · simp [probeFrom, hd, sleepsOf, failStreak]
    · rw [probeFrom_succ_neg d hp fuel i (by simpa using hd)]
      rw [sleepsOf_cons_dial, sleepsOf_cons_sleep, ih (i + 1)]
      rw [failStreak, if_neg hd]
      rw [List.range_succ_eq_map, List.map_cons, List.map_map]
      simp only [Nat.add_zero]
      congr 1
      apply List.map_congr_left
      intro a _
      simp only [Function.comp_apply]
      have heq : i + Nat.succ a = i + 1 + a := by omega
      rw [heq]

/-- Claim C4 counterexample: in a run where start succeeds but no dial
attempt ever connects, the probe performs 10 attempts and 10 sleeps of
10ms times 2 to the attempt index, and the final trace event is the
sleep of 5120ms: a sleep follows the last failed attempt even though no
retry follows it, so sleeps do not occur only between a failed attempt
and a following retry (that would allow at most 9 sleeps and the trace
could not end with a sleep). -/
theorem C4_counterexample :
    sleepsOf (setUpContainerUsingPortEnvVar "upper" envAllOkDialFail).1 =
      [10, 20, 40, 80, 160, 320, 640, 1280, 2560, 5120] ∧
    dialCount (setUpContainerUsingPortEnvVar "upper" envAllOkDialFail).1 = 10 ∧
    (setUpContainerUsingPortEnvVar "upper" envAllOkDialFail).1.getLast? =
      some (SetupEvent.sleepMs 5120) :=
  ⟨rfl, rfl, rfl⟩

/-- Claim C4 amended: the probe attempts a raw TCP connection; the sleep
following the Nth failed attempt (zero-indexed) lasts 10ms times 2 to
the N, and a sleep follows every failed attempt, including the last one
when the budget is exhausted (not only between a failed attempt and a
following retry); after 10 unsuccessful attempts the probe reports
failure. -/
theorem C4_amended_backoff (d : Nat → Bool) (hp : Nat) :
    sleepsOf (probe d hp).1 =
      (List.range (failStreak d 10 0)).map (fun j => 10 * 2 ^ j) ∧
    (∀ j, j < failStreak d 10 0 → d j = false) ∧
    (failStreak d 10 0 < 10 → d (failStreak d 10 0) = true) ∧
    ((∀ i, i < 10 → d i = false) → (probe d hp).2 = false) := by
  refine ⟨?_, ?_, ?_, probe_false_of_allFail d hp⟩
  · have h := probeFrom_sleepsOf d hp 10 0
    rw [probe, h]
    simp
  · intro j hj
    have h := failStreak_false d 10 0 j hj
    simpa using h
  · intro h
    have h2 := failStreak_first_true d 10 0 h
    simpa using h2

/-- Claim C4 amended witness: the all-failing run exhibits the ten
backoff sleeps and the failed probe. -/
theorem C4_amended_witness :
    sleepsOf (probe (fun _ => false) 33000).1 =
      (List.range (failStreak (fun _ => false) 10 0)).map (fun j => 10 * 2 ^ j) ∧
    (probe (fun _ => false) 33000).2 = false :=
  ⟨(C4_amended_backoff (fun _ => false) 33000).1,
   (C4_amended_backoff (fun _ => false) 33000).2.2.2 (fun _ _ => rfl)⟩

/-- Claim C5: the settle sleep of 1000ms occurs in the setup trace
exactly when setup returns an Instance Handle; and whenever a handle is
returned, the settle sleep is the last effect before returning and some
dial attempt among the first 10 succeeded. On a probe that never
succeeds no settle delay occurs and no handle is returned. -/
theorem C5_settle_delay (image : String) (env : SetupEnv) :
    (SetupEvent.sleepMs 1000 ∈ (setUpContainerUsingPortEnvVar image env).1 ↔
      ∃ c, (setUpContainerUsingPortEnvVar image env).2 = Except.ok c) ∧
    (∀ c, (setUpContainerUsingPortEnvVar image env).2 = Except.ok c →
      (setUpContainerUsingPortEnvVar image env).1.getLast? =
        some (SetupEvent.sleepMs 1000) ∧
      ∃ i, i < 10 ∧ env.dialOk i = true) := by
  obtain ⟨pOk, fp, cid, sOk, d⟩ := env
  cases pOk with
  | false => simp [setUpContainerUsingPortEnvVar]
  | true =>
    cases fp with
    | none => simp [setUpContainerUsingPortEnvVar]
    | some hp =>
      cases cid with
      | none => simp [setUpContainerUsingPortEnvVar]
      | some id =>
        cases sOk with
        | false => simp [setUpContainerUsingPortEnvVar]
        | true =>
          cases hb : (probeFrom d hp 10 0).2 with
          | false =>
            have hns := no_settle_in_probeFrom d hp 10 0
            simp [setUpContainerUsingPortEnvVar, probe, hb, hns]
          | true =>
            have hsucc : ∃ j, j < 10 ∧ d j = true := by
              have h2 := (probeFrom_snd_true_iff d hp 10 0).mp hb
              obtain ⟨j, -, hj, hdj⟩ := h2
              exact ⟨j, by omega, hdj⟩
            constructor
            · simp [setUpContainerUsingPortEnvVar, probe, hb]
            · intro c _
              refine ⟨?_, hsucc⟩
              simp only [setUpContainerUsingPortEnvVar, probe, hb]
              rw [show ∀ l1 l2 l3 : List SetupEvent,
                    l1 ++ l2 ++ l3 ++ [SetupEvent.sleepMs 1000] =
                      (l1 ++ l2 ++ l3) ++ [SetupEvent.sleepMs 1000] from fun _ _ _ => rfl]
              exact getLast?_append_singleton _ _

/-- Claim C5 witness: the all-succeeding run returns the handle, the
last trace event is the 1000ms settle sleep, and the first dial attempt
succeeded. -/
theorem C5_witness :
    (setUpContainerUsingPortEnvVar "upper" envAllOk).1.getLast? =
      some (SetupEvent.sleepMs 1000) ∧
    ∃ i, i < 10 ∧ envAllOk.dialOk i = true :=
  (C5_settle_delay "upper" envAllOk).2 { id := "cid", hostPort := 33000 } rfl

/-- Claim C1 counterexample: in a run where pull, port allocation, create
and start all succeed but the candidate never accepts a connection, setup
returns a readiness error while the container it started is never stopped:
a started instance is left dangling on a setup error. -/
theorem C1_counterexample :
    (setUpContainerUsingPortEnvVar "upper" envAllOkDialFail).2 =
      Except.error SetupError.dialErr ∧
    SetupEvent.containerStart "cid" ∈
      (setUpContainerUsingPortEnvVar "upper" envAllOkDialFail).1 ∧
    SetupEvent.containerStop "cid" ∉
      (setUpContainerUsingPortEnvVar "upper" envAllOkDialFail).1 := by
  refine ⟨rfl, ?_, ?_⟩ <;> decide

/-- Claim C1 amended: when setup returns an error, a successfully started
container is present exactly when the error is the readiness-probe
failure; errors at image pull, port allocation, container create or
container start leave no successfully started container. Setup itself
never stops a container, so in the readiness-failure case the started
instance remains alive. -/
theorem C1_amended_leak_only_on_probe_failure (image : String) (env : SetupEnv)
    (herr : ∃ e, (setUpContainerUsingPortEnvVar image env).2 = Except.error e) :
    ((∃ id, SetupEvent.containerStart id ∈ (setUpContainerUsingPortEnvVar image env).1 ∧
        env.startOk = true) ↔
      (setUpContainerUsingPortEnvVar image env).2 = Except.error SetupError.dialErr) ∧
    (∀ id, SetupEvent.containerStop id ∉ (setUpContainerUsingPortEnvVar image env).1) := by
  obtain ⟨pOk, fp, cid, sOk, d⟩ := env
  cases pOk with
  | false => simp [setUpContainerUsingPortEnvVar]
  | true =>
    cases fp with
    | none => simp [setUpContainerUsingPortEnvVar]
    | some hp =>
      cases cid with
      | none => simp [setUpContainerUsingPortEnvVar]
      | some id =>
        cases sOk with
        | false => simp [setUpContainerUsingPortEnvVar]
        | true =>
          cases hb : (probeFrom d hp 10 0).2 with
          | true =>
            obtain ⟨e, he⟩ := herr
            rw [show (setUpContainerUsingPortEnvVar image
                  ⟨true, some hp, some id, true, d⟩).2 =
                Except.ok { id := id, hostPort := hp } from by
                  simp [setUpContainerUsingPortEnvVar, probe, hb]] at he
            exact Except.noConfusion he
          | false =>
            have hns := fun i => no_stop_in_probeFrom d hp 10 0 i
            constructor
            · refine iff_of_true ⟨id, ?_, rfl⟩ (by simp [setUpContainerUsingPortEnvVar, probe, hb])
              simp [setUpContainerUsingPortEnvVar, probe, hb]
            · intro i
              simp [setUpContainerUsingPortEnvVar, probe, hb, hns i]

/-- Claim C1 amended witness: the readiness-failure run instantiates the
amended statement. -/
theorem C1_amended_witness :
    ((∃ id, SetupEvent.containerStart id ∈
        (setUpContainerUsingPortEnvVar "upper" envAllOkDialFail).1 ∧
        envAllOkDialFail.startOk = true) ↔
      (setUpContainerUsingPortEnvVar "upper" envAllOkDialFail).2 =
        Except.error SetupError.dialErr) ∧
    (∀ id, SetupEvent.containerStop id ∉
      (setUpContainerUsingPortEnvVar "upper" envAllOkDialFail).1) :=
  C1_amended_leak_only_on_probe_failure "upper" envAllOkDialFail
    ⟨SetupError.dialErr, rfl⟩

/-- Claim C2 counterexample: in an all-succeeding run, the one container
create call of the trace exposes the single container port 4321 with env
PORT=4321, while the registered suite declares port 8080: the container
is not created with the declared port convention of the suite, and the
PORT hint names 4321, not the declared 8080. -/
theorem C2_counterexample :
    (setUpContainerUsingPortEnvVar "upper" envAllOk).1 =
      [SetupEvent.imagePull "upper", SetupEvent.getFreePort,
       SetupEvent.containerCreate
         { Image := "upper", ExposedPorts := ["4321"], Env := ["PORT=4321"] }
         { PortBindings := [("4321", [{ HostIP := "0.0.0.0", HostPort := "33000" }])] },
       SetupEvent.containerStart "cid", SetupEvent.dialAttempt 33000,
       SetupEvent.sleepMs 1000] ∧
    Request_reply.Port = 8080 ∧ ("4321" : String) ≠ "8080" :=
  ⟨rfl, rfl, by decide⟩

/-- Claim C2 amended: whenever pull, port allocation and create succeed,
the container is created with the single exposed container port 4321
(hardcoded, regardless of the port 8080 declared by the suite) bound to
the allocated free host port, and the environment passes PORT=4321,
matching the exposed container port. -/
theorem C2_amended_hardcoded_4321 (image : String) (env : SetupEnv)
    (hp : Nat) (id : String) (h1 : env.pullOk = true)
    (h2 : env.freePort = some hp) (h3 : env.createId = some id) :
    SetupEvent.containerCreate
      { Image := image, ExposedPorts := ["4321"], Env := ["PORT=4321"] }
      { PortBindings := [("4321", [{ HostIP := "0.0.0.0", HostPort := toString hp }])] }
      ∈ (setUpContainerUsingPortEnvVar image env).1 := by
  obtain ⟨pOk, fp, cid, sOk, d⟩ := env
  simp only at h1 h2 h3
  subst h1
  subst h2
  subst h3
  cases sOk with
  | false => simp [setUpContainerUsingPortEnvVar]
  | true =>
    cases hb : (probeFrom d hp 10 0).2 with
    | false => simp [setUpContainerUsingPortEnvVar, probe, hb]
    | true => simp [setUpContainerUsingPortEnvVar, probe, hb]

/-- Claim C2 amended witness: the all-succeeding run contains the create
call with exposed port 4321, host binding to the allocated port, and
PORT=4321. -/
theorem C2_amended_witness :
    SetupEvent.containerCreate
      { Image := "upper", ExposedPorts := ["4321"], Env := ["PORT=4321"] }
      { PortBindings := [("4321", [{ HostIP := "0.0.0.0", HostPort := toString 33000 }])] }
      ∈ (setUpContainerUsingPortEnvVar "upper" envAllOk).1 :=
  C2_amended_hardcoded_4321 "upper" envAllOk 33000 "cid" rfl rfl rfl

end RequestReply
